import Mathlib

/-!
Verification of the `market_insights` orchestration core: a shallow embedding
of `core/orchestrator.py` and `core/plugin_loader.py` (with the data model of
`core/protocols.py` and the relevant fields of `core/config.py`), together
with theorems settling the specified properties of the Execution Engine
(`Orchestrator`) and the Unit Registry (`PluginLoader`).

Modelling conventions:
* `pathlib.Path` values are modelled as `String`.
* Free-form `dict[str, Any]` metadata is modelled by the concrete shape the
  code actually stores in it (`AnalysisResult.metadata` is an association
  list, the payload metadata is a structure with the three keys the code
  writes).
* A Python call that may raise is modelled by `ExcOr α`: either a normal
  value or a raised exception.  An analyzer's `validate_config()` /
  `analyze()` and a notifier's `send()` are each called at most once per run,
  so they are embedded as the (possibly exceptional) outcome of that one call.
* `try/except` blocks become `match` on `ExcOr`; control-flow observations
  that the claims need (was `analyze()` invoked, which notifiers got a
  delivery attempt, which names were warned about) are returned explicitly.
-/

namespace MarketInsights

/-- A filesystem path (`pathlib.Path`), modelled as its string form. -/
abbrev Path := String

/-- Python exceptions as far as the orchestration core distinguishes them:
`OrchestratorError` (raised by `_execute_analyzer` on validation failure,
`core/exceptions.py`) and any other exception, carrying its `str()` form. -/
inductive Exc where
  | orchestratorError (msg : String)
  | other (tag : Nat) (msg : String)
deriving DecidableEq, Repr

/-- `str(exc)`: the message of an exception. -/
def Exc.message : Exc → String
  | .orchestratorError m => m
  | .other _ m => m

/-- Outcome of a Python call that may raise: a value or an exception. -/
inductive ExcOr (α : Type) where
  | ok (a : α)
  | exc (e : Exc)
deriving DecidableEq, Repr

/-- `AnalysisResult` from `core/protocols.py`. -/
structure AnalysisResult where
  analyzer_name : String
  success : Bool
  artifacts : List Path
  summary : String
  metadata : List (String × String)
  error : Option Exc := none
deriving DecidableEq, Repr

/-- An analysis unit as the Execution Engine sees it (`Analyzer` protocol,
`core/protocols.py`): a name, an enabled flag, and the outcomes of its single
per-run `validate_config()` and `analyze()` calls. -/
structure Analyzer where
  name : String
  enabled : Bool
  validate_config : ExcOr Bool
  analyze : ExcOr AnalysisResult
deriving DecidableEq, Repr

/-- A notification channel (`Notifier` protocol, `core/protocols.py`): a
name, its `is_available()` answer, and the outcome of its single per-run
`send(payload)` call. -/
structure Notifier where
  name : String
  is_available : Bool
  send : ExcOr Bool
deriving DecidableEq, Repr

/-- The fields of `AppConfig` (`core/config.py`) that the orchestrator
reads. -/
structure AppConfig where
  enabled_analyzers : List String
  enabled_notifiers : List String
deriving DecidableEq, Repr

/-- A Python `dict` keyed by strings, as an insertion-ordered association
list with unique keys. -/
abbrev Dict (α : Type) := List (String × α)

/-- `d.get(k)`: first (and, with unique keys, only) binding of `k`. -/
def dictGet (d : Dict α) (k : String) : Option α :=
  (d.find? (fun p => p.1 == k)).map (·.2)

/-- `d[k] = v`: update in place if the key exists, else append. -/
def dictInsert (d : Dict α) (k : String) (v : α) : Dict α :=
  if d.any (fun p => p.1 == k) then
    d.map (fun p => if p.1 == k then (k, v) else p)
  else
    d ++ [(k, v)]

/-- `d.values()`. -/
def dictValues (d : Dict α) : List α := d.map (·.2)

/-- The failure `AnalysisResult` synthesized by
`Orchestrator._execute_analyzer`'s `except` block for exception `e`. -/
def failureResult (name : String) (e : Exc) : AnalysisResult :=
  { analyzer_name := name
  , success := false
  , artifacts := []
  , summary := "Failed with error: " ++ e.message
  , metadata := []
  , error := some e }

/-- `Orchestrator._execute_analyzer`.  Returns the `AnalysisResult` together
with whether `analyze()` was invoked.  Mirrors the `try` block: a
`validate_config()` returning `False` raises an `OrchestratorError`, and any
exception from validation or analysis is caught and converted into a failure
result. -/
def execute_analyzer (a : Analyzer) : AnalysisResult × Bool :=
  match a.validate_config with
  | .exc e => (failureResult a.name e, false)
  | .ok false =>
      (failureResult a.name
        (.orchestratorError ("Configuration validation failed for " ++ a.name)),
       false)
  | .ok true =>
      match a.analyze with
      | .exc e => (failureResult a.name e, true)
      | .ok r => (r, true)

/-- The name-resolution loop of `Orchestrator._load_analyzers` (the
non-empty `enabled_analyzers` branch): resolve each configured name in order,
collecting the analyzers found and warning about names absent from the
registry.  Returns `(selected, warned_names)`. -/
def resolveAnalyzers (names : List String) (areg : Dict Analyzer) :
    List Analyzer × List String :=
  match names with
  | [] => ([], [])
  | n :: rest =>
      let (sel, ws) := resolveAnalyzers rest areg
      match dictGet areg n with
      | some a => (a :: sel, ws)
      | none => (sel, n :: ws)

/-- `Orchestrator._load_analyzers`: select all discovered units when the
configured list is empty, else resolve by name; then filter by each unit's
own `enabled` flag.  Returns `(selected, warned_names)`. -/
def load_analyzers (cfg : AppConfig) (areg : Dict Analyzer) :
    List Analyzer × List String :=
  let (enabled, ws) :=
    if cfg.enabled_analyzers.isEmpty then (dictValues areg, [])
    else resolveAnalyzers cfg.enabled_analyzers areg
  (enabled.filter (·.enabled), ws)

/-- `Orchestrator._load_notifiers`: resolve each configured name in order; a
name absent from the registry, or whose channel reports unavailable, is
skipped with a warning.  Returns `(selected, warned_names)`. -/
def load_notifiers (names : List String) (nreg : Dict Notifier) :
    List Notifier × List String :=
  match names with
  | [] => ([], [])
  | n :: rest =>
      let (sel, ws) := load_notifiers rest nreg
      match dictGet nreg n with
      | some nf =>
          if nf.is_available then (nf :: sel, ws) else (sel, n :: ws)
      | none => (sel, n :: ws)

/-- Metadata entry for one result in the payload metadata (`"results"` key of
`Orchestrator._build_notification_payload`). -/
structure ResultMeta where
  name : String
  success : Bool
  artifacts : List String
deriving DecidableEq, Repr

/-- The metadata dict built by `Orchestrator._build_notification_payload`,
with exactly the keys the code writes. -/
structure PayloadMetadata where
  success_count : Nat
  total_count : Nat
  results : List ResultMeta
deriving DecidableEq, Repr

/-- `NotificationPayload` from `core/protocols.py`, with `metadata` at the
concrete shape the orchestrator stores. -/
structure NotificationPayload where
  title : String
  message : String
  attachments : List Path
  metadata : PayloadMetadata
deriving DecidableEq, Repr

/-- Python `sep.join(lines)`. -/
def pyJoin (sep : String) : List String → String
  | [] => ""
  | [x] => x
  | x :: y :: rest => x ++ sep ++ pyJoin sep (y :: rest)

/-- `Orchestrator._build_notification_payload`. -/
def build_notification_payload (results : List AnalysisResult) :
    NotificationPayload :=
  let success_count := (results.filter (·.success)).length
  let total_count := results.length
  let lines : List String :=
    [ "Market Insights Analysis Complete"
    , ""
    , "Success: " ++ toString success_count ++ "/" ++ toString total_count
        ++ " analyzers"
    , "" ]
    ++ results.flatMap (fun r =>
        [(if r.success then "✓" else "✗") ++ " " ++ r.analyzer_name]
        ++ (if r.summary ≠ "" then ["  " ++ r.summary] else []))
  let all_artifacts :=
    results.foldl (fun acc r => if r.success then acc ++ r.artifacts else acc) []
  { title := "Market Insights Report"
  , message := pyJoin "\n" lines
  , attachments := all_artifacts
  , metadata :=
    { success_count := success_count
    , total_count := total_count
    , results := results.map (fun r =>
        { name := r.analyzer_name
        , success := r.success
        , artifacts := r.artifacts }) } }

/-- `Orchestrator._send_notifications`: deliver the payload to each channel
in turn, catching exceptions, so every channel gets an attempt.  Returns the
per-channel delivery log `(name, outcome of send)`. -/
def send_notifications (notifiers : List Notifier) :
    List (String × ExcOr Bool) :=
  notifiers.map (fun n => (n.name, n.send))

/-! ## Unit Registry (`core/plugin_loader.py`)

Discovery walks candidate modules (subdirectories with an `analyzer.py` for
analyzers, `*.py` files for notifiers — entries starting with `_`, or
`base.py` for notifiers, are filtered out by pure filesystem predicates
before any loading happens; the filesystem is modelled as the post-filter
candidate list).  For each candidate module, the module is imported (which
may raise), and each class defined in it that exposes the required members
is constructed with zero arguments: a successful construction passing the
`isinstance` protocol check registers the instance under its `name`; a
`TypeError` is silently swallowed; any other exception escapes the inner
`try` and is caught by the per-module `except Exception`, which logs and
moves on to the next module. -/

/-- What happens when discovery tries a candidate class of unit type `α`:
zero-argument construction yields an instance (which may or may not pass the
`isinstance` protocol check), raises `TypeError` (missing required
arguments), or raises some other exception. -/
inductive Candidate (α : Type) where
  | ok (inst : α) (isProtocol : Bool)
  | typeError
  | raises (e : Exc)
deriving DecidableEq, Repr

/-- A candidate plugin module: whether `importlib.import_module` succeeds,
and the qualifying classes in `inspect.getmembers` order. -/
structure PluginModule (α : Type) where
  loadOk : Bool
  classes : List (Candidate α)
deriving DecidableEq, Repr

/-- The name of a discovered unit (`instance.name` used as registry key). -/
class HasName (α : Type) where
  nameOf : α → String

instance : HasName Analyzer := ⟨Analyzer.name⟩
instance : HasName Notifier := ⟨Notifier.name⟩

/-- The inner class loop of discovery over one module's classes, threading
the (mutated-in-place) cache.  A non-`TypeError` exception escapes to the
module-level handler: the rest of this module's classes are not reached, but
entries already inserted stay in the cache. -/
def scanClasses [HasName α] (cache : Dict α) : List (Candidate α) → Dict α
  | [] => cache
  | .ok inst true :: rest =>
      scanClasses (dictInsert cache (HasName.nameOf inst) inst) rest
  | .ok _ false :: rest => scanClasses cache rest
  | .typeError :: rest => scanClasses cache rest
  | .raises _ :: _ => cache

/-- One candidate module under the per-module `try/except Exception`: a
failed module import is logged and contributes nothing; otherwise the class
loop runs (itself stopping this module early on a non-`TypeError`). -/
def scanModule [HasName α] (cache : Dict α) (m : PluginModule α) : Dict α :=
  if m.loadOk then scanClasses cache m.classes else cache

/-- The filesystem as a discovery call sees it: does the root directory
exist, and the candidate modules in scan order. -/
structure PluginFS (α : Type) where
  dirExists : Bool
  modules : List (PluginModule α)
deriving DecidableEq, Repr

/-- `PluginLoader.discover_analyzers` / `discover_notifiers` (the two
methods are textually identical up to the unit type): if the cache is
non-empty, return it without touching the filesystem; otherwise scan.
Returns `(result, new cache state, scanned)` where `scanned` records whether
the filesystem was accessed. -/
def discover [HasName α] (fs : PluginFS α) (cache : Dict α) :
    Dict α × Dict α × Bool :=
  if !cache.isEmpty then (cache, cache, false)
  else if !fs.dirExists then ([], cache, true)
  else
    let result := fs.modules.foldl scanModule cache
    (result, result, true)

/-- The prefix of a module's class list before the first candidate whose
construction raises a non-`TypeError` exception (the part the class loop
actually reaches). -/
def truncateClasses : List (Candidate α) → List (Candidate α)
  | [] => []
  | .raises _ :: _ => []
  | c :: rest => c :: truncateClasses rest

/-- A candidate module with its failing part removed: a module whose import
fails contributes nothing, and a module with a raising candidate contributes
only the classes before it. -/
def sanitizeModule (m : PluginModule α) : PluginModule α :=
  if m.loadOk then ⟨true, truncateClasses m.classes⟩ else ⟨true, []⟩

/-- Everything observable about one `Orchestrator.run()` call. -/
structure RunOutput where
  returnValue : Bool
  results : List AnalysisResult
  analyzeCalled : List String
  deliveryAttempts : List (String × ExcOr Bool)
deriving DecidableEq, Repr

/-- `Orchestrator.run`, over the two discovered registries.  The empty
analyzer branch returns `False` before executing anything; otherwise each
resolved analyzer is executed in order, notifications are sent when any
notifier resolved, and the return value is `success_count > 0`. -/
def run (cfg : AppConfig) (areg : Dict Analyzer) (nreg : Dict Notifier) :
    RunOutput :=
  let analyzers := (load_analyzers cfg areg).1
  let notifiers := (load_notifiers cfg.enabled_notifiers nreg).1
  if analyzers.isEmpty then
    { returnValue := false, results := [], analyzeCalled := []
    , deliveryAttempts := [] }
  else
    let execs := analyzers.map (fun a => (a, execute_analyzer a))
    let results := execs.map (fun p => p.2.1)
    let attempts :=
      if notifiers.isEmpty then [] else send_notifications notifiers
    let success_count := (results.filter (·.success)).length
    { returnValue := decide (0 < success_count)
    , results := results
    , analyzeCalled :=
        execs.filterMap (fun p => if p.2.2 then some p.1.name else none)
    , deliveryAttempts := attempts }

/-! ## Helper lemmas -/

lemma length_filter_success_pos_iff (l : List AnalysisResult) :
    0 < (l.filter (·.success)).length ↔ ∃ r ∈ l, r.success = true := by
  induction l with
  | nil => simp
  | cons x xs ih =>
      by_cases hx : x.success <;>
        simp [List.filter_cons, hx, ih]

lemma run_results_of_ne_nil (cfg : AppConfig) (areg : Dict Analyzer)
    (nreg : Dict Notifier) (h : (load_analyzers cfg areg).1 ≠ []) :
    (run cfg areg nreg).results =
      ((load_analyzers cfg areg).1).map (fun a => (execute_analyzer a).1) := by
  unfold run
  simp only [List.isEmpty_iff, h, if_false, List.map_map]
  rfl

lemma strAppend_assoc (a b c : String) : (a ++ b) ++ c = a ++ (b ++ c) := by
  apply String.ext
  simp [String.data_append, List.append_assoc]

lemma pyJoin_mem_split (sep l : String) :
    ∀ L : List String, l ∈ L → ∃ u v, pyJoin sep L = u ++ l ++ v := by
  intro L
  induction L with
  | nil => intro h; cases h
  | cons x rest ih =>
      intro hmem
      cases rest with
      | nil =>
          have hx : l = x := by simpa using hmem
          refine ⟨"", "", ?_⟩
          rw [hx, String.empty_append, String.append_empty]
          rfl
      | cons y rest2 =>
          rcases List.mem_cons.mp hmem with h | h
          · refine ⟨"", sep ++ pyJoin sep (y :: rest2), ?_⟩
            rw [String.empty_append, ← strAppend_assoc, h]
            rfl
          · rcases ih h with ⟨u, v, hu⟩
            refine ⟨x ++ sep ++ u, v, ?_⟩
            show x ++ sep ++ pyJoin sep (y :: rest2) = _
            rw [hu]
            simp [strAppend_assoc]

lemma foldl_collect_artifacts (results : List AnalysisResult) :
    ∀ acc : List Path,
      results.foldl
        (fun acc r => if r.success then acc ++ r.artifacts else acc) acc =
      acc ++ results.flatMap (fun r => if r.success then r.artifacts else []) := by
  induction results with
  | nil => intro acc; simp
  | cons x xs ih =>
      intro acc
      by_cases hx : x.success <;>
        simp [List.foldl_cons, hx, ih, List.append_assoc]

lemma resolveAnalyzers_eq (names : List String) (areg : Dict Analyzer) :
    resolveAnalyzers names areg =
      (names.filterMap (dictGet areg),
       names.filter (fun n => (dictGet areg n).isNone)) := by
  induction names with
  | nil => rfl
  | cons n rest ih =>
      unfold resolveAnalyzers
      rw [ih]
      cases hg : dictGet areg n <;>
        simp [List.filterMap_cons, List.filter_cons, hg]

lemma load_notifiers_eq (names : List String) (nreg : Dict Notifier) :
    load_notifiers names nreg =
      (names.filterMap (fun n => (dictGet nreg n).bind
          (fun nf => if nf.is_available then some nf else none)),
       names.filter (fun n => ((dictGet nreg n).bind
          (fun nf => if nf.is_available then some nf else none)).isNone)) := by
  induction names with
  | nil => rfl
  | cons n rest ih =>
      unfold load_notifiers
      rw [ih]
      cases hg : dictGet nreg n with
      | none => simp [List.filterMap_cons, List.filter_cons, hg]
      | some nf =>
          by_cases ha : nf.is_available <;>
            simp [List.filterMap_cons, List.filter_cons, hg, ha]

/-! ## Claim theorems -/

/-- C1: `Orchestrator.run()` returns true if and only if at least one
`AnalysisResult` in the run's outcome list has `success = true`. -/
theorem run_true_iff_some_success (cfg : AppConfig) (areg : Dict Analyzer)
    (nreg : Dict Notifier) :
    (run cfg areg nreg).returnValue = true ↔
      ∃ r ∈ (run cfg areg nreg).results, r.success = true := by
  unfold run
  by_cases h : ((load_analyzers cfg areg).1).isEmpty
  · simp [h]
  · simp [h, decide_eq_true_iff, length_filter_success_pos_iff]

/-- C3: for every run in which the resolved enabled analysis-unit set is
empty, `run()` returns false immediately and no unit's `analyze()` is
invoked. -/
theorem run_empty_analyzers_false (cfg : AppConfig) (areg : Dict Analyzer)
    (nreg : Dict Notifier) (h : (load_analyzers cfg areg).1 = []) :
    (run cfg areg nreg).returnValue = false ∧
      (run cfg areg nreg).analyzeCalled = [] := by
  unfold run
  simp [h]

/-- Witness for C3: with nothing discovered and nothing configured, the
resolved set is empty, the run returns false and invokes no analyzer. -/
theorem run_empty_analyzers_false_witness :
    (load_analyzers ⟨[], []⟩ []).1 = [] ∧
      ((run ⟨[], []⟩ [] []).returnValue = false ∧
        (run ⟨[], []⟩ [] []).analyzeCalled = []) :=
  ⟨rfl, run_empty_analyzers_false ⟨[], []⟩ [] [] rfl⟩

/-- C2: an exception `e` raised by a unit's validation or by its main
operation is converted into a failure outcome with `success = false` and `e`
as its cause; the outcome takes that unit's place in the run's result list
while every other resolved unit is still executed, and `run()` itself (a
total function here) propagates no exception. -/
theorem exception_isolated (a : Analyzer) (e : Exc)
    (hexc : a.validate_config = .exc e ∨
      (a.validate_config = .ok true ∧ a.analyze = .exc e)) :
    (execute_analyzer a).1 = failureResult a.name e ∧
    (execute_analyzer a).1.success = false ∧
    (execute_analyzer a).1.error = some e ∧
    ∀ (cfg : AppConfig) (areg : Dict Analyzer) (nreg : Dict Notifier)
      (pre post : List Analyzer),
      (load_analyzers cfg areg).1 = pre ++ a :: post →
      (run cfg areg nreg).results =
        pre.map (fun x => (execute_analyzer x).1) ++
          failureResult a.name e :: post.map (fun x => (execute_analyzer x).1)
    := by
  have hx : (execute_analyzer a).1 = failureResult a.name e := by
    rcases hexc with h | ⟨h1, h2⟩
    · unfold execute_analyzer
      rw [h]
    · unfold execute_analyzer
      rw [h1, h2]
  refine ⟨hx, by rw [hx]; rfl, by rw [hx]; rfl, ?_⟩
  intro cfg areg nreg pre post hres
  have hne : (load_analyzers cfg areg).1 ≠ [] := by simp [hres]
  rw [run_results_of_ne_nil cfg areg nreg hne, hres]
  simp [hx]

/-- Witness for C2: a unit whose `analyze()` raises yields the failure
outcome carrying that exception. -/
theorem exception_isolated_witness :
    (Analyzer.mk "b" true (.ok true) (.exc (.other 1 "boom"))).validate_config
        = .ok true ∧
    (Analyzer.mk "b" true (.ok true) (.exc (.other 1 "boom"))).analyze
        = .exc (.other 1 "boom") ∧
    (execute_analyzer
        (Analyzer.mk "b" true (.ok true) (.exc (.other 1 "boom")))).1
      = failureResult "b" (.other 1 "boom") :=
  ⟨rfl, rfl,
    (exception_isolated (Analyzer.mk "b" true (.ok true)
      (.exc (.other 1 "boom"))) (.other 1 "boom") (Or.inr ⟨rfl, rfl⟩)).1⟩

/-- C7: a unit whose `validate_config()` returns false gets a failure
outcome (the synthesized `OrchestratorError`), recorded in the run's result
list whenever the unit is resolved, and its `analyze()` is not invoked. -/
theorem validate_failure_skips_analyze (a : Analyzer)
    (h : a.validate_config = .ok false) :
    (execute_analyzer a).1 = failureResult a.name
        (.orchestratorError ("Configuration validation failed for " ++ a.name)) ∧
    (execute_analyzer a).1.success = false ∧
    (execute_analyzer a).2 = false ∧
    ∀ (cfg : AppConfig) (areg : Dict Analyzer) (nreg : Dict Notifier),
      a ∈ (load_analyzers cfg areg).1 →
      (execute_analyzer a).1 ∈ (run cfg areg nreg).results := by
  have hx : execute_analyzer a = (failureResult a.name
      (.orchestratorError ("Configuration validation failed for " ++ a.name)),
      false) := by
    unfold execute_analyzer
    rw [h]
  refine ⟨by rw [hx], by rw [hx]; rfl, by rw [hx], ?_⟩
  intro cfg areg nreg hmem
  have hne : (load_analyzers cfg areg).1 ≠ [] := List.ne_nil_of_mem hmem
  rw [run_results_of_ne_nil cfg areg nreg hne]
  exact List.mem_map_of_mem _ hmem

/-- Witness for C7: a unit reporting invalid configuration yields a failure
outcome without its `analyze()` being called. -/
theorem validate_failure_skips_analyze_witness :
    (Analyzer.mk "c" true (.ok false) (.ok (AnalysisResult.mk "c" true [] "" []
        none))).validate_config = .ok false ∧
    (execute_analyzer (Analyzer.mk "c" true (.ok false)
        (.ok (AnalysisResult.mk "c" true [] "" [] none)))).2 = false :=
  ⟨rfl,
    (validate_failure_skips_analyze (Analyzer.mk "c" true (.ok false)
      (.ok (AnalysisResult.mk "c" true [] "" [] none))) rfl).2.2.1⟩

/-- C9: resolving enabled analysis units: with an empty configured list every
discovered unit is selected; otherwise units are selected by configured-name
order, names absent from the registry are warned about and skipped (the rest
still selected); the selection is then filtered by each unit's own `enabled`
flag. -/
theorem load_analyzers_resolution (cfg : AppConfig) (areg : Dict Analyzer) :
    load_analyzers cfg areg =
      (if cfg.enabled_analyzers.isEmpty then
        ((dictValues areg).filter (·.enabled), ([] : List String))
       else
        ((cfg.enabled_analyzers.filterMap (dictGet areg)).filter (·.enabled),
         cfg.enabled_analyzers.filter (fun n => (dictGet areg n).isNone))) := by
  unfold load_analyzers
  by_cases h : cfg.enabled_analyzers.isEmpty <;>
    simp [h, resolveAnalyzers_eq]

/-- C8: a configured notification name absent from the registry or reporting
unavailable is warned about and skipped while the other configured channels
are still selected in order; the run's return value and result list do not
depend on the notifier registry at all (so a delivery failure — a `send`
returning false or raising — cannot affect them); and when any notifiers
resolved (and analyzers ran), every resolved channel receives exactly one
delivery attempt regardless of the other channels' outcomes. -/
theorem notification_isolation :
    (∀ (names : List String) (nreg : Dict Notifier),
      load_notifiers names nreg =
        (names.filterMap (fun n => (dictGet nreg n).bind
            (fun nf => if nf.is_available then some nf else none)),
         names.filter (fun n => ((dictGet nreg n).bind
            (fun nf => if nf.is_available then some nf else none)).isNone))) ∧
    (∀ (cfg : AppConfig) (areg : Dict Analyzer) (nreg nreg' : Dict Notifier),
      (run cfg areg nreg).returnValue = (run cfg areg nreg').returnValue ∧
      (run cfg areg nreg).results = (run cfg areg nreg').results) ∧
    (∀ (cfg : AppConfig) (areg : Dict Analyzer) (nreg : Dict Notifier),
      (run cfg areg nreg).deliveryAttempts =
        if ((load_analyzers cfg areg).1).isEmpty then []
        else if ((load_notifiers cfg.enabled_notifiers nreg).1).isEmpty then []
        else ((load_notifiers cfg.enabled_notifiers nreg).1).map
          (fun n => (n.name, n.send))) := by
  refine ⟨load_notifiers_eq, ?_, ?_⟩
  · intro cfg areg nreg nreg'
    unfold run
    by_cases h : ((load_analyzers cfg areg).1).isEmpty
    · simp [h]
    · simp only [h, Bool.false_eq_true, if_false]
      constructor <;> trivial
  · intro cfg areg nreg
    unfold run
    by_cases h : ((load_analyzers cfg areg).1).isEmpty
    · simp [h]
    · simp only [h, Bool.false_eq_true, if_false]
      rfl

/-- C6: the payload's metadata `success_count` is the number of outcomes
with `success = true`, `total_count` is the length of the outcome list, and
the message contains the line `Success: <success_count>/<total_count>
analyzers`. -/
theorem payload_counts_and_message (results : List AnalysisResult) :
    (build_notification_payload results).metadata.success_count =
        results.countP (·.success) ∧
    (build_notification_payload results).metadata.total_count =
        results.length ∧
    ∃ u v, (build_notification_payload results).message =
      u ++ ("Success: "
        ++ toString (build_notification_payload results).metadata.success_count
        ++ "/" ++ toString (build_notification_payload results).metadata.total_count
        ++ " analyzers") ++ v := by
  refine ⟨by simp [build_notification_payload, List.countP_eq_length_filter],
    rfl, ?_⟩
  apply pyJoin_mem_split
  simp [build_notification_payload]

/-- C10: the payload's attachments are exactly the concatenation, in outcome
order, of the artifact lists of the successful outcomes; failed outcomes
contribute no attachments. -/
theorem payload_attachments (results : List AnalysisResult) :
    (build_notification_payload results).attachments =
      results.flatMap (fun r => if r.success then r.artifacts else []) := by
  show results.foldl
      (fun acc r => if r.success then acc ++ r.artifacts else acc) [] = _
  rw [foldl_collect_artifacts results []]
  rfl

lemma scanClasses_truncate {α : Type} [HasName α] :
    ∀ (cs : List (Candidate α)) (cache : Dict α),
      scanClasses cache (truncateClasses cs) = scanClasses cache cs := by
  intro cs
  induction cs with
  | nil => intro cache; rfl
  | cons c rest ih =>
      intro cache
      cases c with
      | ok inst isP => cases isP <;> simp [truncateClasses, scanClasses, ih]
      | typeError => simp [truncateClasses, scanClasses, ih]
      | raises e => rfl

lemma scanModule_sanitize {α : Type} [HasName α] (cache : Dict α)
    (m : PluginModule α) :
    scanModule cache (sanitizeModule m) = scanModule cache m := by
  unfold sanitizeModule scanModule
  by_cases h : m.loadOk <;> simp [h, scanClasses_truncate, scanClasses]

lemma foldl_scanModule_sanitize {α : Type} [HasName α] :
    ∀ (ms : List (PluginModule α)) (cache : Dict α),
      (ms.map sanitizeModule).foldl scanModule cache =
        ms.foldl scanModule cache := by
  intro ms
  induction ms with
  | nil => intro cache; rfl
  | cons m rest ih =>
      intro cache
      simp only [List.map_cons, List.foldl_cons, scanModule_sanitize, ih]

/-- C4 (amended): during discovery, a `TypeError` from zero-argument
construction is silently swallowed (the scan proceeds as if the candidate
were not there), and a module-load failure or a non-`TypeError`
instantiation exception is contained to that module: discovery behaves as if
the bad module were replaced by the part of it before the failure (units
already registered from it are kept), so one bad candidate never aborts
discovery in the remaining modules — though it does abort the rest of its
own module's candidates. -/
theorem discovery_error_containment {α : Type} [HasName α] :
    (∀ (cache : Dict α) (rest : List (Candidate α)),
      scanClasses cache (Candidate.typeError :: rest) =
        scanClasses cache rest) ∧
    (∀ (fs : PluginFS α) (cache : Dict α),
      discover fs cache =
        discover ⟨fs.dirExists, fs.modules.map sanitizeModule⟩ cache) := by
  refine ⟨fun _ _ => rfl, ?_⟩
  intro fs cache
  unfold discover
  by_cases h1 : cache.isEmpty
  · by_cases h2 : fs.dirExists <;>
      simp [h1, h2, foldl_scanModule_sanitize]
  · simp [h1]

/-- Counterexample to C4 as stated: in a module whose first candidate's
construction raises a non-`TypeError` exception, the claim predicts only
that candidate is skipped, so the later class `"b"` should still be
discovered; the code's per-module exception handler skips the whole rest of
the module, and discovery returns the empty registry. -/
theorem discovery_error_containment_cex :
    (discover
      (⟨true, [⟨true, [Candidate.raises (.other 0 "boom"),
        Candidate.ok (Analyzer.mk "b" true (.ok true)
          (.ok (AnalysisResult.mk "b" true [] "" [] none))) true]⟩]⟩ :
        PluginFS Analyzer)
      ([] : Dict Analyzer)).1 = [] ∧
    dictGet (discover
      (⟨true, [⟨true, [Candidate.raises (.other 0 "boom"),
        Candidate.ok (Analyzer.mk "b" true (.ok true)
          (.ok (AnalysisResult.mk "b" true [] "" [] none))) true]⟩]⟩ :
        PluginFS Analyzer)
      ([] : Dict Analyzer)).1 "b" = none :=
  ⟨rfl, rfl⟩

/-- C5 (amended): once a discovery call has left a non-empty cache, any
later discovery call returns that identical mapping, leaves the cache
unchanged, and reports no filesystem scan — even if the filesystem has
changed meanwhile. -/
theorem discover_memoized {α : Type} [HasName α] (fs fs2 : PluginFS α)
    (cache : Dict α) (h : (discover fs cache).2.1 ≠ []) :
    (discover fs cache).1 = (discover fs cache).2.1 ∧
    discover fs2 (discover fs cache).2.1 =
      ((discover fs cache).2.1, (discover fs cache).2.1, false) := by
  constructor
  · unfold discover at h ⊢
    by_cases h1 : cache.isEmpty
    · by_cases h2 : fs.dirExists
      · simp [h1, h2]
      · simp [h1, h2] at h
        exact absurd (List.isEmpty_iff.mp h1) h
    · simp [h1]
  · have hgen : ∀ d : Dict α, d ≠ [] → discover fs2 d = (d, d, false) := by
      intro d hd
      have hde : d.isEmpty = false := by
        cases d
        · exact absurd rfl hd
        · rfl
      unfold discover
      simp [hde]
    exact hgen _ h

/-- Counterexample to C5 as stated: when the first discovery call finds
nothing (here: the plugin directory exists but has no candidate modules),
the cache stays empty and a second discovery call scans the filesystem
again (`scanned = true`), contrary to the claim that every second call
returns the cached mapping without re-scanning. -/
theorem discover_memoized_cex :
    (discover (⟨true, []⟩ : PluginFS Analyzer)
      ((discover (⟨true, []⟩ : PluginFS Analyzer) ([] : Dict Analyzer)).2.1)
      ).2.2 = true := rfl

/-- Witness for C5 (amended): one discovered unit makes the cache
non-empty; the second call (even against a filesystem with no plugin
directory) returns the same mapping without scanning. -/
theorem discover_memoized_witness :
    (discover
      (⟨true, [⟨true, [Candidate.ok (Analyzer.mk "a" true (.ok true)
        (.ok (AnalysisResult.mk "a" true [] "" [] none))) true]⟩]⟩ :
        PluginFS Analyzer) ([] : Dict Analyzer)).2.1 ≠ [] ∧
    ((discover
      (⟨true, [⟨true, [Candidate.ok (Analyzer.mk "a" true (.ok true)
        (.ok (AnalysisResult.mk "a" true [] "" [] none))) true]⟩]⟩ :
        PluginFS Analyzer) ([] : Dict Analyzer)).1 =
      (discover
      (⟨true, [⟨true, [Candidate.ok (Analyzer.mk "a" true (.ok true)
        (.ok (AnalysisResult.mk "a" true [] "" [] none))) true]⟩]⟩ :
        PluginFS Analyzer) ([] : Dict Analyzer)).2.1 ∧
    discover (⟨false, []⟩ : PluginFS Analyzer)
      ((discover
      (⟨true, [⟨true, [Candidate.ok (Analyzer.mk "a" true (.ok true)
        (.ok (AnalysisResult.mk "a" true [] "" [] none))) true]⟩]⟩ :
        PluginFS Analyzer) ([] : Dict Analyzer)).2.1) =
      ((discover
      (⟨true, [⟨true, [Candidate.ok (Analyzer.mk "a" true (.ok true)
        (.ok (AnalysisResult.mk "a" true [] "" [] none))) true]⟩]⟩ :
        PluginFS Analyzer) ([] : Dict Analyzer)).2.1,
       (discover
      (⟨true, [⟨true, [Candidate.ok (Analyzer.mk "a" true (.ok true)
        (.ok (AnalysisResult.mk "a" true [] "" [] none))) true]⟩]⟩ :
        PluginFS Analyzer) ([] : Dict Analyzer)).2.1, false)) :=
  ⟨by decide,
    discover_memoized
      (⟨true, [⟨true, [Candidate.ok (Analyzer.mk "a" true (.ok true)
        (.ok (AnalysisResult.mk "a" true [] "" [] none))) true]⟩]⟩ :
        PluginFS Analyzer)
      (⟨false, []⟩ : PluginFS Analyzer) ([] : Dict Analyzer) (by decide)⟩

end MarketInsights
